import Mathlib

/-!
Verification of the HDFury integration's command/connection core
(`uc_intg_hdfury`): a shallow embedding of `models.py`, `hdfury_client.py`,
`device.py` and `remote.py`, together with theorems about the retry policy,
idle reconnect, command dispatch, the command queue and the keep-alive loop.

Python string primitives (`str.replace`, `str.strip`, `str.startswith`) are
re-implemented over `List Char` so that every definition is executable and
kernel-reducible.
-/

namespace HDFury

/-! Section: Python string primitives -/

/-- Characters considered whitespace by Python's `str.strip()`. -/
def pySpace (c : Char) : Bool :=
  c = ' ' || c = '\t' || c = '\n' || c = '\x0d' || c = '\x0b' || c = '\x0c'

/-- Drop leading and trailing whitespace from a character list
(Python `str.strip()`). -/
def stripList (l : List Char) : List Char :=
  ((l.dropWhile pySpace).reverse.dropWhile pySpace).reverse

/-- Python `s.strip()`. -/
def pyStrip (s : String) : String :=
  ⟨stripList s.data⟩

/-- Fuel-bounded engine for Python `str.replace`: scan left to right, replace
each non-overlapping occurrence of `old` by `new`, never re-scanning the
replacement. The fuel is the length of the input, which suffices whenever
`old` is non-empty. -/
def replaceFuel (old new : List Char) : Nat → List Char → List Char
  | 0, s => s
  | _ + 1, [] => []
  | fuel + 1, c :: rest =>
    if old.isPrefixOf (c :: rest) && !old.isEmpty then
      new ++ replaceFuel old new fuel ((c :: rest).drop old.length)
    else
      c :: replaceFuel old new fuel rest

/-- Python `s.replace(old, new)` for non-empty `old` (every use in the
repository has a non-empty first argument). -/
def pyReplace (s old new : String) : String :=
  ⟨replaceFuel old.data new.data s.data.length s.data⟩

/-- Python `s.startswith(p)`. -/
def pyStartsWith (s p : String) : Bool :=
  p.data.isPrefixOf s.data

/-! Section: models.py -/

/-- Per-model capability descriptor (`models.ModelConfig`). -/
structure ModelConfig where
  model_id : String
  display_name : String
  default_port : Nat
  input_count : Nat
  source_command : String
  edid_modes : List String
  edid_audio_sources : List String
  hdr_custom_support : Bool
  hdr_disable_support : Bool
  cec_support : Bool
  earc_force_modes : List String
  oled_support : Bool
  autoswitch_support : Bool
  hdcp_modes : List String
  scale_modes : Option (List String) := none
  audio_modes : Option (List String) := none
  led_modes : Option (List String) := none

/-- `models.VRROOM_CONFIG`. -/
def VRROOM_CONFIG : ModelConfig where
  model_id := "vrroom"
  display_name := "VRRooM"
  default_port := 2222
  input_count := 4
  source_command := "inseltx0"
  edid_modes := ["automix", "custom", "fixed", "copytx0", "copytx1"]
  edid_audio_sources := ["stereo", "5.1", "full", "audioout", "earcout"]
  hdr_custom_support := true
  hdr_disable_support := true
  cec_support := true
  earc_force_modes := ["auto", "earc", "hdmi"]
  oled_support := true
  autoswitch_support := true
  hdcp_modes := ["auto", "1.4"]

/-- `models.VERTEX2_CONFIG`. -/
def VERTEX2_CONFIG : ModelConfig where
  model_id := "vertex2"
  display_name := "VERTEX2"
  default_port := 2220
  input_count := 4
  source_command := "inseltx0"
  edid_modes := ["automix", "custom", "fixed", "copytx0", "copytx1"]
  edid_audio_sources := ["stereo", "5.1", "full", "native", "tx1"]
  hdr_custom_support := true
  hdr_disable_support := true
  cec_support := true
  earc_force_modes := ["auto", "earc", "hdmi"]
  oled_support := true
  autoswitch_support := true
  hdcp_modes := ["auto", "1.4"]
  scale_modes := some ["auto", "custom", "none"]

/-- `models.VERTEX_CONFIG`. -/
def VERTEX_CONFIG : ModelConfig where
  model_id := "vertex"
  display_name := "VERTEX"
  default_port := 2220
  input_count := 2
  source_command := "input"
  edid_modes := ["automix", "custom", "fixed", "copytop", "copybot"]
  edid_audio_sources := ["stereo", "5.1", "7.1", "native", "top"]
  hdr_custom_support := true
  hdr_disable_support := true
  cec_support := true
  earc_force_modes := []
  oled_support := true
  autoswitch_support := true
  hdcp_modes := ["1.4", "2.2"]
  scale_modes := some ["auto", "custom", "none"]

/-- `models.DIVA_CONFIG`. -/
def DIVA_CONFIG : ModelConfig where
  model_id := "diva"
  display_name := "DIVA"
  default_port := 2210
  input_count := 4
  source_command := "inseltx0"
  edid_modes := ["automix", "custom", "fixed", "copytx0", "copytx1"]
  edid_audio_sources := ["stereo", "5.1", "full", "native", "tx1"]
  hdr_custom_support := true
  hdr_disable_support := true
  cec_support := true
  earc_force_modes := ["auto", "earc", "hdmi"]
  oled_support := true
  autoswitch_support := true
  hdcp_modes := ["auto", "1.4"]
  scale_modes := some ["auto", "custom", "none"]
  led_modes := some ["0", "1", "2", "3", "4"]

/-- `models.MAESTRO_CONFIG`. -/
def MAESTRO_CONFIG : ModelConfig where
  model_id := "maestro"
  display_name := "Maestro"
  default_port := 2200
  input_count := 4
  source_command := "inseltx0"
  edid_modes := ["automix", "custom", "fixed", "copytx0", "copytx1"]
  edid_audio_sources := ["stereo", "5.1", "full", "native", "tx1"]
  hdr_custom_support := true
  hdr_disable_support := true
  cec_support := true
  earc_force_modes := ["auto", "earc", "hdmi"]
  oled_support := true
  autoswitch_support := true
  hdcp_modes := ["auto", "1.4"]
  scale_modes := some ["auto", "custom", "none"]

/-- `models.ARCANA2_CONFIG`. -/
def ARCANA2_CONFIG : ModelConfig where
  model_id := "arcana2"
  display_name := "ARCANA2"
  default_port := 2222
  input_count := 1
  source_command := ""
  edid_modes := []
  edid_audio_sources := []
  hdr_custom_support := true
  hdr_disable_support := false
  cec_support := false
  earc_force_modes := ["autoearc", "manualearc", "autoarc", "manualarc", "hdmi"]
  oled_support := true
  autoswitch_support := false
  hdcp_modes := []
  scale_modes := some ["none", "downtx1", "frltmds", "audioonly",
    "4k60_444_8_lldv", "4k60_444_8_hdr", "4k60_444_8_sdr"]
  audio_modes := some ["display", "earc", "both"]

/-- `models.DR8K_CONFIG`. -/
def DR8K_CONFIG : ModelConfig where
  model_id := "dr8k"
  display_name := "Dr.HDMI 8K"
  default_port := 2201
  input_count := 1
  source_command := ""
  edid_modes := ["automix", "custom", "fixed", "copytx"]
  edid_audio_sources := ["stereo", "5.1", "full", "custom"]
  hdr_custom_support := false
  hdr_disable_support := false
  cec_support := false
  earc_force_modes := []
  oled_support := true
  autoswitch_support := false
  hdcp_modes := []

/-- `models.MODEL_CONFIGS`, as an association list. -/
def MODEL_CONFIGS : List (String × ModelConfig) :=
  [("vrroom", VRROOM_CONFIG), ("vertex2", VERTEX2_CONFIG), ("vertex", VERTEX_CONFIG),
   ("diva", DIVA_CONFIG), ("maestro", MAESTRO_CONFIG), ("arcana2", ARCANA2_CONFIG),
   ("dr8k", DR8K_CONFIG)]

/-- `models.get_model_config`: dictionary lookup with `VRROOM_CONFIG` as the
fallback for unknown ids. -/
def get_model_config (model_id : String) : ModelConfig :=
  match MODEL_CONFIGS.find? (fun p => p.1 = model_id) with
  | some p => p.2
  | none => VRROOM_CONFIG

/-- `models.get_source_list`. -/
def get_source_list (cfg : ModelConfig) : List String :=
  if cfg.input_count = 0 then []
  else if cfg.input_count = 2 then ["Top", "Bottom"]
  else (List.range cfg.input_count).map (fun i => "HDMI " ++ toString i)

/-- `models.format_source_for_command`: the "vertex" model maps the labels
`Top`/`Bottom` to `top`/`bot` (defaulting to `top`); every other model strips
the `HDMI ` text and surrounding whitespace. -/
def format_source_for_command (source : String) (cfg : ModelConfig) : String :=
  if cfg.model_id = "vertex" then
    if source = "Top" then "top" else if source = "Bottom" then "bot" else "top"
  else
    pyStrip (pyReplace source "HDMI " "")

/-! Section: Controller-facing status codes (`ucapi.api_definitions.StatusCodes`) -/

/-- Status code returned to the remote-control integration layer. -/
inductive StatusCode where
  | ok
  | badRequest
  | notImplemented
  | serverError
deriving DecidableEq

/-! Section: Command dispatch (`device.HDFuryDevice._execute_command_internal`) -/

/-- One invocation of an `HDFuryClient` command builder, with the argument the
dispatcher passes to it. -/
inductive SessionCall where
  | setSource (source : String)
  | setEdidMode (mode : String)
  | setEdidAudio (source : String)
  | setHdrCustom (state : Bool)
  | setHdrDisable (state : Bool)
  | setCec (state : Bool)
  | setEarcForce (mode : String)
  | setOled (state : Bool)
  | setAutoswitch (state : Bool)
  | setHdcpMode (mode : String)
  | setScaleMode (mode : String)
  | setAudioMode (mode : String)
  | setLedProfileVideoMode (mode : String)
deriving DecidableEq

/-- Routing part of `_execute_command_internal`: the prefix-dispatch chain,
mapping a command identifier to the client call it makes (`none` when no
recognised prefix matches, in which case the code returns NOT_IMPLEMENTED). -/
def dispatch (command : String) : Option SessionCall :=
  if pyStartsWith command "set_source_" then
    some (.setSource (pyReplace (pyReplace command "set_source_" "") "_" " "))
  else if pyStartsWith command "set_edidmode_" then
    some (.setEdidMode (pyReplace command "set_edidmode_" ""))
  else if pyStartsWith command "set_edidaudio_" then
    let source := pyReplace command "set_edidaudio_" ""
    some (.setEdidAudio (if source = "51" then "5.1" else source))
  else if pyStartsWith command "set_hdrcustom_" then
    some (.setHdrCustom (command = "set_hdrcustom_on"))
  else if pyStartsWith command "set_hdrdisable_" then
    some (.setHdrDisable (command = "set_hdrdisable_on"))
  else if pyStartsWith command "set_cec_" then
    some (.setCec (command = "set_cec_on"))
  else if pyStartsWith command "set_earcforce_" then
    some (.setEarcForce (pyReplace command "set_earcforce_" ""))
  else if pyStartsWith command "set_oled_" then
    some (.setOled (command = "set_oled_on"))
  else if pyStartsWith command "set_autosw_" then
    some (.setAutoswitch (command = "set_autosw_on"))
  else if pyStartsWith command "set_hdcp_" then
    some (.setHdcpMode (pyReplace command "set_hdcp_" ""))
  else if pyStartsWith command "set_scalemode_" then
    some (.setScaleMode (pyReplace command "set_scalemode_" ""))
  else if pyStartsWith command "set_audiomode_" then
    some (.setAudioMode (pyReplace command "set_audiomode_" ""))
  else if pyStartsWith command "set_ledprofilevideo_" then
    some (.setLedProfileVideoMode (pyReplace command "set_ledprofilevideo_" ""))
  else
    none

/-- Whether any of the thirteen recognised `set_*` command prefixes matches. -/
def recognized (command : String) : Bool :=
  pyStartsWith command "set_source_" || pyStartsWith command "set_edidmode_" ||
  pyStartsWith command "set_edidaudio_" || pyStartsWith command "set_hdrcustom_" ||
  pyStartsWith command "set_hdrdisable_" || pyStartsWith command "set_cec_" ||
  pyStartsWith command "set_earcforce_" || pyStartsWith command "set_oled_" ||
  pyStartsWith command "set_autosw_" || pyStartsWith command "set_hdcp_" ||
  pyStartsWith command "set_scalemode_" || pyStartsWith command "set_audiomode_" ||
  pyStartsWith command "set_ledprofilevideo_"

/-- Python `'on' if state else 'off'`. -/
def onOff (state : Bool) : String :=
  if state then "on" else "off"

/-- `HDFuryClient.set_source`, as the list of command strings it passes to
`send_command`: the "vertex" model sends `set input <src>`; otherwise, only if
the model's `source_command` verb is non-empty (Python truthiness of the
string), `set <source_command> <src>` is sent; models with an empty verb send
nothing. -/
def set_source_wire (cfg : ModelConfig) (source : String) : List String :=
  let formatted_source := format_source_for_command source cfg
  if cfg.model_id = "vertex" then
    ["set input " ++ formatted_source]
  else if cfg.source_command ≠ "" then
    ["set " ++ cfg.source_command ++ " " ++ formatted_source]
  else
    []

/-- Wire command strings produced by each `HDFuryClient` command builder
(each builder formats one line and delegates it to `send_command`;
`set_source` may send nothing, `set_hdcp_mode` rewrites `14` to `1.4`, and
`set_scale_mode` uses the `scalemode` verb only for the "arcana2" model). -/
def call_wire (cfg : ModelConfig) : SessionCall → List String
  | .setSource source => set_source_wire cfg source
  | .setEdidMode mode => ["set edidmode " ++ mode]
  | .setEdidAudio source => ["set edid audio " ++ source]
  | .setHdrCustom state => ["set hdrcustom " ++ onOff state]
  | .setHdrDisable state => ["set hdrdisable " ++ onOff state]
  | .setCec state => ["set cec " ++ onOff state]
  | .setEarcForce mode => ["set earcforce " ++ mode]
  | .setOled state => ["set oled " ++ onOff state]
  | .setAutoswitch state => ["set autosw " ++ onOff state]
  | .setHdcpMode mode => ["set hdcp " ++ (if mode = "14" then "1.4" else mode)]
  | .setScaleMode mode =>
      if cfg.model_id = "arcana2" then ["set scalemode " ++ mode]
      else ["set scale " ++ mode]
  | .setAudioMode mode => ["set audiomode " ++ mode]
  | .setLedProfileVideoMode mode => ["set ledprofilevideo " ++ mode]

/-- Observable outcome of one `_execute_command_internal` run: the status code
returned, the client calls made, the wire commands those calls sent (when the
call completed without an exception; exchanges of a failing call are not
modelled), and the value of `current_source` afterwards. -/
structure ExecOutcome where
  status : StatusCode
  calls : List SessionCall
  wire : List String
  current_source : Option String
deriving DecidableEq

/-- `device.HDFuryDevice._execute_command_internal`: route the identifier via
the prefix chain; an unrecognised identifier returns NOT_IMPLEMENTED with no
client call; `fails call = true` models the mapped action raising, caught and
turned into SERVER_ERROR; on normal completion the result is OK and a
`set_source_*` command additionally assigns `current_source`. -/
def execute_command_internal (cfg : ModelConfig) (fails : SessionCall → Bool)
    (command : String) (cur : Option String) : ExecOutcome :=
  match dispatch command with
  | none => ⟨.notImplemented, [], [], cur⟩
  | some call =>
    if fails call then
      ⟨.serverError, [call], [], cur⟩
    else
      ⟨.ok, [call], call_wire cfg call,
        match call with
        | .setSource source => some source
        | _ => cur⟩

/-! Section: remote.py: `HDFuryRemote._build_simple_commands` -/

/-- Python truthiness helper for the `Optional[List[str]]` mode fields:
`None` and the empty list are falsy. -/
def optList (o : Option (List String)) : List String :=
  o.getD []

/-- `remote.HDFuryRemote._build_simple_commands`, with the device's
`source_list` passed explicitly (the device computes it with
`get_source_list`). -/
def build_simple_commands (cfg : ModelConfig) (source_list : List String) :
    List String :=
  (if cfg.input_count > 0 then
    source_list.map (fun s => "set_source_" ++ pyReplace s " " "_")
  else [])
  ++ cfg.edid_modes.map (fun m => "set_edidmode_" ++ m)
  ++ cfg.edid_audio_sources.map (fun s => "set_edidaudio_" ++ pyReplace s "." "")
  ++ (if optList cfg.scale_modes ≠ [] then
        (optList cfg.scale_modes).map (fun m => "set_scalemode_" ++ m)
      else [])
  ++ (if optList cfg.audio_modes ≠ [] then
        (optList cfg.audio_modes).map (fun m => "set_audiomode_" ++ m)
      else [])
  ++ (if optList cfg.led_modes ≠ [] then
        (optList cfg.led_modes).map (fun m => "set_ledprofilevideo_" ++ m)
      else [])
  ++ (if cfg.hdr_custom_support then ["set_hdrcustom_on", "set_hdrcustom_off"] else [])
  ++ (if cfg.hdr_disable_support then ["set_hdrdisable_on", "set_hdrdisable_off"] else [])
  ++ (if cfg.cec_support then ["set_cec_on", "set_cec_off"] else [])
  ++ cfg.earc_force_modes.map (fun m => "set_earcforce_" ++ m)
  ++ (if cfg.oled_support then ["set_oled_on", "set_oled_off"] else [])
  ++ (if cfg.autoswitch_support then ["set_autosw_on", "set_autosw_off"] else [])
  ++ cfg.hdcp_modes.map (fun m => "set_hdcp_" ++ (if m = "1.4" then "14" else m))

/-- The simple-command table a device built for `cfg` exposes (the device's
`source_list` field is `get_source_list cfg`). -/
def build_simple_commands_for (cfg : ModelConfig) : List String :=
  build_simple_commands cfg (get_source_list cfg)

/-! Section: hdfury_client.py: connection state and `send_command`

The asyncio client is embedded as explicit state passing. The socket/event
loop is abstracted by small outcome environments: one `ConnectOutcome` per
`asyncio.open_connection` attempt and one `WireOutcome` per write+readline
exchange. The event-loop clock is an `Int` (only comparisons against the
600-second idle threshold matter). -/

/-- Connection state owned by one `HDFuryClient` (`_writer`/`_reader` presence
collapses to the `connected` flag; `_last_activity` as recorded by the code). -/
structure ClientState where
  connected : Bool
  lastActivity : Int
deriving DecidableEq

/-- Observable socket-level actions, in order of occurrence. -/
inductive Event where
  | disconnect
  | connectOk
  | connectFail
  | write (command : String)
  | readOk (line : String)
deriving DecidableEq

/-- Outcome of one `asyncio.open_connection` attempt inside `connect()`:
opened within the 10-second budget, refused/reset (a `ConnectionError`), or
not opened within the budget (`asyncio.wait_for` raises
`asyncio.TimeoutError`). -/
inductive ConnectOutcome where
  | opened
  | refused
  | timedOut
deriving DecidableEq

/-- Exception class raised by a failed `connect()` (the code re-raises the
underlying exception after logging and clearing the session). -/
inductive ConnectError where
  | timeoutError
  | connectionError
deriving DecidableEq

/-- Connect timeout passed to `asyncio.wait_for` in `connect()`, in seconds. -/
def connect_timeout_seconds : Nat := 10

/-- State, raised error (if any) and socket events of a connection-management
step. -/
structure EnsureOutcome where
  state : ClientState
  error : Option ConnectError
  events : List Event
deriving DecidableEq

/-- `HDFuryClient.disconnect`: closes the writer when one is present and
clears the session; a no-op on an already-closed session. -/
def disconnect_state (s : ClientState) : ClientState × List Event :=
  if s.connected then ({ s with connected := false }, [.disconnect]) else (s, [])

/-- `HDFuryClient.connect`: returns immediately when already connected;
otherwise attempts to open the socket with a 10s timeout. On success the
welcome banner is drained (best effort, no state effect) and `_last_activity`
is set to the current loop time; on failure the session is cleared and the
underlying exception re-raised. -/
def connect_result (co : ConnectOutcome) (now : Int) (s : ClientState) :
    EnsureOutcome :=
  if s.connected then ⟨s, none, []⟩
  else
    match co with
    | .opened => ⟨⟨true, now⟩, none, [.connectOk]⟩
    | .refused => ⟨s, some .connectionError, [.connectFail]⟩
    | .timedOut => ⟨s, some .timeoutError, [.connectFail]⟩

/-- `HDFuryClient._ensure_connection`: when more than 600 seconds have passed
since `_last_activity`, proactively disconnect; then connect whenever the
session is not connected. -/
def ensure_connection (co : ConnectOutcome) (now : Int) (s : ClientState) :
    EnsureOutcome :=
  let (s1, evs1) :=
    if now - s.lastActivity > 600 then disconnect_state s else (s, [])
  if s1.connected then ⟨s1, none, evs1⟩
  else
    let c := connect_result co now s1
    ⟨c.state, c.error, evs1 ++ c.events⟩

/-- Python `sub in s` on strings: whether `sub` occurs contiguously in `s`. -/
def containsSub (s sub : List Char) : Bool :=
  match s with
  | [] => sub.isEmpty
  | _ :: rest => sub.isPrefixOf s || containsSub rest sub

/-- `HDFuryClient._get_command_timeout`: 8 seconds when the command text
contains "set", else 5. -/
def get_command_timeout (command : String) : Nat :=
  if containsSub command.data "set".data then 8 else 5

/-- Decoding applied to the response line in `send_command`:
`response.decode('ascii').replace('>', '').strip()` — every `>` character is
removed, then surrounding whitespace is stripped. -/
def decode_response (line : String) : String :=
  pyStrip (pyReplace line ">" "")

/-- Outcome of the write+drain+readline exchange of one `send_command`
attempt, supplied by the environment: a response line, a read timeout
(`asyncio.TimeoutError`), a connection-class error (`ConnectionResetError`,
`BrokenPipeError`, `ConnectionError`, `OSError`), or any other exception. -/
inductive WireOutcome where
  | ok (line : String)
  | timeout
  | connErr
  | otherErr
deriving DecidableEq

/-- Environment for one `send_command` attempt: the loop time at entry, the
outcome of a connect attempt (if one is made), the outcome of the wire
exchange (if reached), and the loop time at which a successful response is
recorded into `_last_activity`. -/
structure AttemptEnv where
  startTime : Int
  connect : ConnectOutcome
  wire : WireOutcome
  endTime : Int

/-- Error class surfaced by a failed `send_command` call. `noEnv` marks
exhaustion of the attempt environment and is unreachable whenever at least
two attempt environments are supplied. -/
inductive SendError where
  | timeoutError
  | connError
  | otherError
  | noEnv
deriving DecidableEq

/-- Result of a `send_command` call: the returned string or raised error
class, the client state afterwards, the socket events in order, and the
number of full exchange attempts consumed. -/
structure SendOutcome where
  result : Except SendError String
  state : ClientState
  events : List Event
  attempts : Nat

/-- `HDFuryClient.send_command` (the body of the `async with self._lock`
block, single-threaded here). One environment entry is consumed per attempt.
Per attempt: `_ensure_connection`; a `ConnectionError` from it is caught by
the connection-class handler (disconnect, then retry once under the
`is_retry` guard); an `asyncio.TimeoutError` from it reaches the timeout
handler whose log f-string reads the not-yet-assigned `timeout` local and so
raises `UnboundLocalError`, surfaced unretried. Once connected, the command
is written and one line read: on success the decoded response is returned and
`_last_activity` refreshed; on read timeout the client disconnects and
retries the whole exchange once (a timeout on the retry raises
`asyncio.TimeoutError`); on a connection-class error it disconnects and
retries once (re-raising on the retry); any other exception disconnects and
re-raises without retry. -/
def send_command (command : String) :
    List AttemptEnv → ClientState → Bool → SendOutcome
  | [], s, _ => ⟨.error .noEnv, s, [], 0⟩
  | e :: rest, s, is_retry =>
    let en := ensure_connection e.connect e.startTime s
    match en.error with
    | some .timeoutError =>
      ⟨.error .otherError, en.state, en.events, 0⟩
    | some .connectionError =>
      if is_retry then
        ⟨.error .connError, en.state, en.events, 0⟩
      else
        let r := send_command command rest en.state true
        ⟨r.result, r.state, en.events ++ r.events, r.attempts⟩
    | none =>
      let evs1 := en.events ++ [Event.write command]
      match e.wire with
      | .ok line =>
        ⟨.ok (decode_response line), { en.state with lastActivity := e.endTime },
         evs1 ++ [.readOk line], 1⟩
      | .timeout =>
        let (s2, devs) := disconnect_state en.state
        if is_retry then
          ⟨.error .timeoutError, s2, evs1 ++ devs, 1⟩
        else
          let r := send_command command rest s2 true
          ⟨r.result, r.state, evs1 ++ devs ++ r.events, r.attempts + 1⟩
      | .connErr =>
        let (s2, devs) := disconnect_state en.state
        if is_retry then
          ⟨.error .connError, s2, evs1 ++ devs, 1⟩
        else
          let r := send_command command rest s2 true
          ⟨r.result, r.state, evs1 ++ devs ++ r.events, r.attempts + 1⟩
      | .otherErr =>
        let (s2, devs) := disconnect_state en.state
        ⟨.error .otherError, s2, evs1 ++ devs, 1⟩

/-! Section: device.py: command queue (`_queue_command` + `_process_command_queue`)

One enqueued `(command, future)` pair is followed through both tasks. The
completion handle is an `asyncio.Future`, whose CPython state machine is
embedded directly: `Future.cancel()` moves a pending future to `cancelled`;
`Future.set_result` resolves a pending future and raises `InvalidStateError`
on a done (e.g. cancelled) one. `asyncio.wait_for(future, timeout)` cancels
the still-pending future when the timeout expires, then raises
`asyncio.TimeoutError` to the caller. -/

/-- State of the caller's completion handle (`asyncio.Future`). -/
inductive FutureState where
  | pending
  | cancelled
  | resolved (r : StatusCode)
deriving DecidableEq

/-- `asyncio.Future.cancel`: cancels a pending future; no effect on a done
one. -/
def future_cancel : FutureState → FutureState
  | .pending => .cancelled
  | fs => fs

/-- `asyncio.Future.set_result`: resolves a pending future; `none` models the
`InvalidStateError` raised on a future that is already done. -/
def future_set_result (r : StatusCode) : FutureState → Option FutureState
  | .pending => some (.resolved r)
  | _ => none

/-- Ceiling, in seconds, of the caller-side wait in `_queue_command`. -/
def queue_wait_seconds : Nat := 10

/-- Tail of one `_process_command_queue` iteration, entered with the future in
state `fut` when `_execute_command_internal` has completed with
`dispatchResult`. Nothing cancels the consumer task here, so the dispatch
always runs to completion (the returned `Bool`). `future.set_result` on a
cancelled handle raises `InvalidStateError`, caught by the item's `except`
whose `future.set_exception` raises `InvalidStateError` again; the loop's
outer handler logs it and the future is left as it was. -/
def process_one_item (dispatchResult : StatusCode) (fut : FutureState) :
    FutureState × Bool :=
  match future_set_result dispatchResult fut with
  | some fs => (fs, true)
  | none => (fut, true)

/-- `_queue_command` composed with the consumer's handling of the same item:
`dispatchDuration` is the time, in seconds, from the enqueue until the
consumer attempts to resolve the future (queue wait, rate-limit sleep and
`_execute_command_internal` included). If the future resolves within the 10s
ceiling the caller returns its result; otherwise `asyncio.wait_for` cancels
the pending future, the caller catches `asyncio.TimeoutError` and returns
SERVER_ERROR, and the consumer still completes the dispatch afterwards
against the cancelled handle. Returns (caller status, final future state,
dispatch ran to completion). -/
def queue_command_wait (dispatchResult : StatusCode) (dispatchDuration : Nat) :
    StatusCode × FutureState × Bool :=
  if dispatchDuration ≤ queue_wait_seconds then
    let (fs, completed) := process_one_item dispatchResult .pending
    (match fs with | .resolved r => r | _ => .serverError, fs, completed)
  else
    let (fs, completed) := process_one_item dispatchResult (future_cancel .pending)
    (.serverError, fs, completed)

/-! Section: device.py: keep-alive loop -/

/-- Lifecycle state exposed through the media-player entity
(`ucapi.media_player.States`; only the two values the keep-alive loop touches
are needed). -/
inductive PlayerState where
  | On
  | Unavailable
deriving DecidableEq

/-- Slice of `HDFuryDevice` state read and written by one keep-alive cycle. -/
structure KeepAliveState where
  state : PlayerState
  media_title : String
  last_successful_command : Int
  command_in_progress : Bool
  queue_empty : Bool
  connected : Bool
deriving DecidableEq

/-- Body of one `_keep_alive_loop` iteration after its 600s sleep, at loop
time `now`, with `connectOk` the outcome of a reconnect attempt, should one
be made. Returns the state afterwards and the list of state snapshots emitted
as change notifications, in order. Skips the cycle when a command is in
flight or the queue is non-empty; otherwise, when more than 1200s have passed
since the last successful command and the client is disconnected, transitions
to Unavailable (emitting once, guarded on not already being Unavailable) and
attempts a reconnect: on success transitions back to On, refreshes the
success timestamp to `now` and emits again; on failure the exception is
logged and the state is left Unavailable. -/
def keep_alive_cycle (now : Int) (connectOk : Bool) (d : KeepAliveState) :
    KeepAliveState × List KeepAliveState :=
  if d.command_in_progress || !d.queue_empty then (d, [])
  else if now - d.last_successful_command > 1200 then
    if !d.connected then
      let (d1, em1) :=
        if d.state ≠ PlayerState.Unavailable then
          let du := { d with state := .Unavailable, media_title := "Connection Lost" }
          (du, [du])
        else (d, [])
      if connectOk then
        let don := { d1 with connected := true, state := .On, media_title := "Ready",
                             last_successful_command := now }
        (don, em1 ++ [don])
      else (d1, em1)
    else (d, [])
  else (d, [])

/-! Section: Supporting lemmas -/

theorem isPrefixOf_self_append (p r : List Char) : p.isPrefixOf (p ++ r) = true := by
  induction p with
  | nil => simp [List.isPrefixOf]
  | cons c cs ih => simp [List.isPrefixOf, ih]

theorem pyStartsWith_append (p r : String) : pyStartsWith (p ++ r) p = true := by
  unfold pyStartsWith
  rw [String.data_append]
  exact isPrefixOf_self_append p.data r.data

theorem dispatch_set_source (suffix : String) :
    dispatch ("set_source_" ++ suffix) =
      some (.setSource (pyReplace (pyReplace ("set_source_" ++ suffix)
        "set_source_" "") "_" " ")) := by
  unfold dispatch
  rw [pyStartsWith_append]
  simp

set_option maxHeartbeats 1000000 in
theorem dispatch_isSome (command : String) :
    (dispatch command).isSome = recognized command := by
  unfold dispatch recognized
  by_cases h1 : pyStartsWith command "set_source_" = true
  · simp [h1]
  by_cases h2 : pyStartsWith command "set_edidmode_" = true
  · simp [h1, h2]
  by_cases h3 : pyStartsWith command "set_edidaudio_" = true
  · simp [h1, h2, h3]
  by_cases h4 : pyStartsWith command "set_hdrcustom_" = true
  · simp [h1, h2, h3, h4]
  by_cases h5 : pyStartsWith command "set_hdrdisable_" = true
  · simp [h1, h2, h3, h4, h5]
  by_cases h6 : pyStartsWith command "set_cec_" = true
  · simp [h1, h2, h3, h4, h5, h6]
  by_cases h7 : pyStartsWith command "set_earcforce_" = true
  · simp [h1, h2, h3, h4, h5, h6, h7]
  by_cases h8 : pyStartsWith command "set_oled_" = true
  · simp [h1, h2, h3, h4, h5, h6, h7, h8]
  by_cases h9 : pyStartsWith command "set_autosw_" = true
  · simp [h1, h2, h3, h4, h5, h6, h7, h8, h9]
  by_cases h10 : pyStartsWith command "set_hdcp_" = true
  · simp [h1, h2, h3, h4, h5, h6, h7, h8, h9, h10]
  by_cases h11 : pyStartsWith command "set_scalemode_" = true
  · simp [h1, h2, h3, h4, h5, h6, h7, h8, h9, h10, h11]
  by_cases h12 : pyStartsWith command "set_audiomode_" = true
  · simp [h1, h2, h3, h4, h5, h6, h7, h8, h9, h10, h11, h12]
  by_cases h13 : pyStartsWith command "set_ledprofilevideo_" = true
  · simp [h1, h2, h3, h4, h5, h6, h7, h8, h9, h10, h11, h12, h13]
  · simp [h1, h2, h3, h4, h5, h6, h7, h8, h9, h10, h11, h12, h13]

theorem dispatch_none_iff (command : String) :
    dispatch command = none ↔ recognized command = false := by
  have h := dispatch_isSome command
  constructor
  · intro hn
    rw [hn] at h
    exact h.symm.trans rfl
  · intro hr
    rw [hr] at h
    cases hd : dispatch command with
    | none => rfl
    | some call => rw [hd] at h; exact absurd h (by simp)

theorem replaceFuel_single_empty (c : Char) (s : List Char) :
    ∀ fuel, s.length ≤ fuel →
      replaceFuel [c] [] fuel s = s.filter (fun x => !(x == c)) := by
  induction s with
  | nil => intro fuel _; cases fuel <;> simp [replaceFuel]
  | cons x xs ih =>
    intro fuel hf
    cases fuel with
    | zero => simp at hf
    | succ f =>
      simp only [replaceFuel, List.isPrefixOf, List.isEmpty, List.filter]
      by_cases hcx : c = x
      · subst hcx
        simp [ih f (by simpa using hf)]
      · have h1 : (c == x) = false := beq_eq_false_iff_ne.mpr hcx
        have h2 : (x == c) = false := beq_eq_false_iff_ne.mpr (Ne.symm hcx)
        simp [h1, h2, ih f (by simpa using hf)]

theorem ensure_connected_not_idle (co : ConnectOutcome) (t : Int) (s : ClientState)
    (hc : s.connected = true) (hidle : ¬t - s.lastActivity > 600) :
    ensure_connection co t s = ⟨s, none, []⟩ := by
  unfold ensure_connection disconnect_state connect_result
  simp [hidle, hc]

theorem ensure_opened_connected_idle (t : Int) (s : ClientState)
    (hc : s.connected = true) (hidle : t - s.lastActivity > 600) :
    ensure_connection .opened t s = ⟨⟨true, t⟩, none, [.disconnect, .connectOk]⟩ := by
  obtain ⟨conn, la⟩ := s
  subst hc
  unfold ensure_connection disconnect_state connect_result
  simp_all

theorem ensure_opened_disconnected (t : Int) (s : ClientState)
    (hc : s.connected = false) :
    ensure_connection .opened t s = ⟨⟨true, t⟩, none, [.connectOk]⟩ := by
  obtain ⟨conn, la⟩ := s
  subst hc
  unfold ensure_connection disconnect_state connect_result
  by_cases hidle : t - la > 600 <;> simp_all

theorem ensure_refused_disconnected (t : Int) (s : ClientState)
    (hc : s.connected = false) :
    ensure_connection .refused t s = ⟨s, some .connectionError, [.connectFail]⟩ := by
  obtain ⟨conn, la⟩ := s
  subst hc
  unfold ensure_connection disconnect_state connect_result
  by_cases hidle : t - la > 600 <;> simp_all

theorem ensure_timedOut_disconnected (t : Int) (s : ClientState)
    (hc : s.connected = false) :
    ensure_connection .timedOut t s = ⟨s, some .timeoutError, [.connectFail]⟩ := by
  obtain ⟨conn, la⟩ := s
  subst hc
  unfold ensure_connection disconnect_state connect_result
  by_cases hidle : t - la > 600 <;> simp_all

theorem ensure_opened_eq (t : Int) (s : ClientState) :
    ∃ la evs, ensure_connection .opened t s = ⟨⟨true, la⟩, none, evs⟩ := by
  by_cases hc : s.connected = true
  · by_cases hidle : t - s.lastActivity > 600
    · exact ⟨t, _, ensure_opened_connected_idle t s hc hidle⟩
    · refine ⟨s.lastActivity, [], ?_⟩
      rw [ensure_connected_not_idle .opened t s hc hidle]
      obtain ⟨conn, la⟩ := s
      subst hc
      rfl
  · exact ⟨t, _, ensure_opened_disconnected t s (by simpa using hc)⟩

theorem send_retry_opened (cmd : String) (e : AttemptEnv) (rest : List AttemptEnv)
    (s : ClientState) (hc : e.connect = .opened) :
    (e.wire = .timeout →
      (send_command cmd (e :: rest) s true).result = .error .timeoutError ∧
      (send_command cmd (e :: rest) s true).attempts = 1) ∧
    (e.wire = .connErr →
      (send_command cmd (e :: rest) s true).result = .error .connError ∧
      (send_command cmd (e :: rest) s true).attempts = 1) ∧
    (∀ line, e.wire = .ok line →
      (send_command cmd (e :: rest) s true).result = .ok (decode_response line) ∧
      (send_command cmd (e :: rest) s true).attempts = 1) := by
  obtain ⟨la, evs, hen⟩ := ensure_opened_eq e.startTime s
  refine ⟨fun hw => ?_, fun hw => ?_, fun line hw => ?_⟩ <;>
    simp [send_command, hc, hen, hw, disconnect_state]

theorem send_fail_retries (cmd : String) (e : AttemptEnv) (rest : List AttemptEnv)
    (s : ClientState) (hc : e.connect = .opened)
    (hw : e.wire = .timeout ∨ e.wire = .connErr) :
    ∃ pre s2, s2.connected = false ∧ Event.disconnect ∈ pre ∧
      send_command cmd (e :: rest) s false =
        ⟨(send_command cmd rest s2 true).result,
         (send_command cmd rest s2 true).state,
         pre ++ (send_command cmd rest s2 true).events,
         (send_command cmd rest s2 true).attempts + 1⟩ := by
  obtain ⟨la, evs, hen⟩ := ensure_opened_eq e.startTime s
  refine ⟨evs ++ [Event.write cmd] ++ [Event.disconnect], ⟨false, la⟩, rfl, by simp, ?_⟩
  rcases hw with hw | hw <;>
    simp [send_command, hc, hen, hw, disconnect_state]

theorem no_write_in_nil :
    ∀ pre (c : String) post, ([] : List Event) = pre ++ Event.write c :: post →
      Event.connectOk ∈ pre := by
  intro pre c post h
  exact absurd h.symm (by simp)

theorem write_preceded_cons_connect (tl : List Event) :
    ∀ pre c post, Event.connectOk :: tl = pre ++ Event.write c :: post →
      Event.connectOk ∈ pre := by
  intro pre c post h
  cases pre with
  | nil => simp at h
  | cons p ps =>
    rw [List.cons_append] at h
    obtain ⟨hp, -⟩ := List.cons.inj h
    subst hp
    exact List.mem_cons_self _ _

theorem write_preceded_cons_other (x : Event) (tl : List Event)
    (hx : ∀ c, x ≠ Event.write c)
    (h : ∀ pre c post, tl = pre ++ Event.write c :: post → Event.connectOk ∈ pre) :
    ∀ pre c post, x :: tl = pre ++ Event.write c :: post → Event.connectOk ∈ pre := by
  intro pre c post hp
  cases pre with
  | nil =>
    rw [List.nil_append] at hp
    obtain ⟨hx2, -⟩ := List.cons.inj hp
    exact absurd hx2 (hx c)
  | cons p ps =>
    rw [List.cons_append] at hp
    obtain ⟨-, htl⟩ := List.cons.inj hp
    exact List.mem_cons_of_mem p (h ps c post htl)

theorem send_write_after_connect (cmd : String) (envs : List AttemptEnv) :
    ∀ (s : ClientState) (b : Bool), s.connected = false →
      ∀ pre c post,
        (send_command cmd envs s b).events = pre ++ Event.write c :: post →
        Event.connectOk ∈ pre := by
  induction envs with
  | nil =>
    intro s b _ pre c post h
    rw [show (send_command cmd [] s b).events = [] from rfl] at h
    exact no_write_in_nil pre c post h
  | cons e rest ih =>
    intro s b hs
    cases he : e.connect with
    | opened =>
      have hen := ensure_opened_disconnected e.startTime s hs
      cases hw : e.wire with
      | ok line =>
        have hev : (send_command cmd (e :: rest) s b).events =
            Event.connectOk :: [Event.write cmd, Event.readOk line] := by
          simp [send_command, he, hen, hw]
        simp only [hev]
        exact write_preceded_cons_connect _
      | timeout =>
        cases b with
        | true =>
          have hev : (send_command cmd (e :: rest) s true).events =
              Event.connectOk :: [Event.write cmd, Event.disconnect] := by
            simp [send_command, he, hen, hw, disconnect_state]
          simp only [hev]
          exact write_preceded_cons_connect _
        | false =>
          have hev : (send_command cmd (e :: rest) s false).events =
              Event.connectOk :: (Event.write cmd :: Event.disconnect ::
                (send_command cmd rest ⟨false, e.startTime⟩ true).events) := by
            simp [send_command, he, hen, hw, disconnect_state]
          simp only [hev]
          exact write_preceded_cons_connect _
      | connErr =>
        cases b with
        | true =>
          have hev : (send_command cmd (e :: rest) s true).events =
              Event.connectOk :: [Event.write cmd, Event.disconnect] := by
            simp [send_command, he, hen, hw, disconnect_state]
          simp only [hev]
          exact write_preceded_cons_connect _
        | false =>
          have hev : (send_command cmd (e :: rest) s false).events =
              Event.connectOk :: (Event.write cmd :: Event.disconnect ::
                (send_command cmd rest ⟨false, e.startTime⟩ true).events) := by
            simp [send_command, he, hen, hw, disconnect_state]
          simp only [hev]
          exact write_preceded_cons_connect _
      | otherErr =>
        have hev : (send_command cmd (e :: rest) s b).events =
            Event.connectOk :: [Event.write cmd, Event.disconnect] := by
          simp [send_command, he, hen, hw, disconnect_state]
        simp only [hev]
        exact write_preceded_cons_connect _
    | refused =>
      have hen := ensure_refused_disconnected e.startTime s hs
      cases b with
      | true =>
        have hev : (send_command cmd (e :: rest) s true).events = [Event.connectFail] := by
          simp [send_command, he, hen]
        simp only [hev]
        exact write_preceded_cons_other _ _ (by intro c h; cases h)
          (no_write_in_nil)
      | false =>
        have hev : (send_command cmd (e :: rest) s false).events =
            Event.connectFail :: (send_command cmd rest s true).events := by
          simp [send_command, he, hen]
        simp only [hev]
        exact write_preceded_cons_other _ _ (by intro c h; cases h)
          (ih s true hs)
    | timedOut =>
      have hen := ensure_timedOut_disconnected e.startTime s hs
      have hev : (send_command cmd (e :: rest) s b).events = [Event.connectFail] := by
        simp [send_command, he, hen]
      simp only [hev]
      exact write_preceded_cons_other _ _ (by intro c h; cases h)
        (no_write_in_nil)

/-! Section: Claim theorems -/

/-- C1: when the wire exchange of `send_command` raises a timeout or a
connection-class error, the client disconnects and retries the entire
exchange exactly once; a second consecutive failure of the same class does
not retry again (exactly 2 exchange attempts even with more environment
available) and surfaces as failure — the timeout class as a timeout error,
the connection class as the connection error; a retry whose exchange
succeeds returns the decoded response after exactly the one retry. -/
theorem c1_retry_once (cmd line : String) (e1 e2 : AttemptEnv)
    (rest : List AttemptEnv) (s : ClientState)
    (hc1 : e1.connect = .opened) (hc2 : e2.connect = .opened) :
    (e1.wire = .timeout → e2.wire = .timeout →
      (send_command cmd (e1 :: e2 :: rest) s false).result = .error .timeoutError ∧
      (send_command cmd (e1 :: e2 :: rest) s false).attempts = 2 ∧
      Event.disconnect ∈ (send_command cmd (e1 :: e2 :: rest) s false).events) ∧
    (e1.wire = .connErr → e2.wire = .connErr →
      (send_command cmd (e1 :: e2 :: rest) s false).result = .error .connError ∧
      (send_command cmd (e1 :: e2 :: rest) s false).attempts = 2 ∧
      Event.disconnect ∈ (send_command cmd (e1 :: e2 :: rest) s false).events) ∧
    ((e1.wire = .timeout ∨ e1.wire = .connErr) → e2.wire = .ok line →
      (send_command cmd (e1 :: e2 :: rest) s false).result = .ok (decode_response line) ∧
      (send_command cmd (e1 :: e2 :: rest) s false).attempts = 2) := by
  refine ⟨fun hw1 hw2 => ?_, fun hw1 hw2 => ?_, fun hw1 hw2 => ?_⟩
  · obtain ⟨pre, s2, hs2, hd, heq⟩ :=
      send_fail_retries cmd e1 (e2 :: rest) s hc1 (Or.inl hw1)
    have hr := (send_retry_opened cmd e2 rest s2 hc2).1 hw2
    rw [heq]
    exact ⟨hr.1, by rw [show (⟨_, _, _, _⟩ : SendOutcome).attempts =
      (send_command cmd (e2 :: rest) s2 true).attempts + 1 from rfl, hr.2],
      List.mem_append_left _ hd⟩
  · obtain ⟨pre, s2, hs2, hd, heq⟩ :=
      send_fail_retries cmd e1 (e2 :: rest) s hc1 (Or.inr hw1)
    have hr := (send_retry_opened cmd e2 rest s2 hc2).2.1 hw2
    rw [heq]
    exact ⟨hr.1, by rw [show (⟨_, _, _, _⟩ : SendOutcome).attempts =
      (send_command cmd (e2 :: rest) s2 true).attempts + 1 from rfl, hr.2],
      List.mem_append_left _ hd⟩
  · obtain ⟨pre, s2, hs2, hd, heq⟩ :=
      send_fail_retries cmd e1 (e2 :: rest) s hc1 hw1
    have hr := (send_retry_opened cmd e2 rest s2 hc2).2.2 line hw2
    rw [heq]
    exact ⟨hr.1, by rw [show (⟨_, _, _, _⟩ : SendOutcome).attempts =
      (send_command cmd (e2 :: rest) s2 true).attempts + 1 from rfl, hr.2]⟩

/-- C1 witness: two consecutive read timeouts on a connected client produce
a timeout error after exactly two exchange attempts, with a disconnect in
between. -/
theorem c1_retry_once_witness :
    (send_command "get ver" [⟨1000, .opened, .timeout, 1000⟩,
      ⟨1009, .opened, .timeout, 1009⟩] ⟨true, 900⟩ false).result =
        .error .timeoutError ∧
    (send_command "get ver" [⟨1000, .opened, .timeout, 1000⟩,
      ⟨1009, .opened, .timeout, 1009⟩] ⟨true, 900⟩ false).attempts = 2 ∧
    Event.disconnect ∈ (send_command "get ver" [⟨1000, .opened, .timeout, 1000⟩,
      ⟨1009, .opened, .timeout, 1009⟩] ⟨true, 900⟩ false).events :=
  (c1_retry_once "get ver" "" ⟨1000, .opened, .timeout, 1000⟩
    ⟨1009, .opened, .timeout, 1009⟩ [] ⟨true, 900⟩ rfl rfl).1 rfl rfl

/-- C3: when more than 600 seconds have elapsed since the last recorded
activity and the old session reports connected, a disconnect followed by a
reconnect precedes the write; when the session is not connected at dispatch
time, a connect precedes the write; and, starting disconnected, every write
anywhere in the call (retries included) is preceded by a successful
connect. -/
theorem c3_idle_reconnect (cmd : String) (e : AttemptEnv)
    (rest : List AttemptEnv) (s : ClientState) :
    (e.connect = .opened → s.connected = true →
      e.startTime - s.lastActivity > 600 →
      ∃ tail, (send_command cmd (e :: rest) s false).events =
        Event.disconnect :: Event.connectOk :: Event.write cmd :: tail) ∧
    (e.connect = .opened → s.connected = false →
      ∃ tail, (send_command cmd (e :: rest) s false).events =
        Event.connectOk :: Event.write cmd :: tail) ∧
    (s.connected = false →
      ∀ pre c post,
        (send_command cmd (e :: rest) s false).events =
          pre ++ Event.write c :: post →
        Event.connectOk ∈ pre) := by
  refine ⟨fun hc hconn hidle => ?_, fun hc hconn => ?_,
    fun hconn => send_write_after_connect cmd (e :: rest) s false hconn⟩
  · have hen := ensure_opened_connected_idle e.startTime s hconn hidle
    cases hw : e.wire with
    | ok line =>
      exact ⟨[Event.readOk line], by simp [send_command, hc, hen, hw]⟩
    | timeout =>
      exact ⟨Event.disconnect ::
        (send_command cmd rest ⟨false, e.startTime⟩ true).events,
        by simp [send_command, hc, hen, hw, disconnect_state]⟩
    | connErr =>
      exact ⟨Event.disconnect ::
        (send_command cmd rest ⟨false, e.startTime⟩ true).events,
        by simp [send_command, hc, hen, hw, disconnect_state]⟩
    | otherErr =>
      exact ⟨[Event.disconnect],
        by simp [send_command, hc, hen, hw, disconnect_state]⟩
  · have hen := ensure_opened_disconnected e.startTime s hconn
    cases hw : e.wire with
    | ok line =>
      exact ⟨[Event.readOk line], by simp [send_command, hc, hen, hw]⟩
    | timeout =>
      exact ⟨Event.disconnect ::
        (send_command cmd rest ⟨false, e.startTime⟩ true).events,
        by simp [send_command, hc, hen, hw, disconnect_state]⟩
    | connErr =>
      exact ⟨Event.disconnect ::
        (send_command cmd rest ⟨false, e.startTime⟩ true).events,
        by simp [send_command, hc, hen, hw, disconnect_state]⟩
    | otherErr =>
      exact ⟨[Event.disconnect],
        by simp [send_command, hc, hen, hw, disconnect_state]⟩

/-- C3 witness: a `send_command` on a connected session 1000 seconds after
the last activity tears the session down and reconnects before writing. -/
theorem c3_idle_reconnect_witness :
    ∃ tail, (send_command "get insel" [⟨1000, .opened, .ok "OK", 1000⟩]
      ⟨true, 0⟩ false).events =
        Event.disconnect :: Event.connectOk :: Event.write "get insel" :: tail :=
  (c3_idle_reconnect "get insel" ⟨1000, .opened, .ok "OK", 1000⟩ []
    ⟨true, 0⟩).1 rfl rfl (by decide)

/-- C4 counterexample: the claim states that for every model other than
"vertex", `setSource` sends exactly one wire command
`set <source_command> <src>`. For the "arcana2" model (empty
`source_command`) and source value "HDMI 1", `set_source` sends nothing at
all. -/
theorem c4_counterexample :
    ARCANA2_CONFIG.model_id ≠ "vertex" ∧
    set_source_wire ARCANA2_CONFIG "HDMI 1" = [] ∧
    (set_source_wire ARCANA2_CONFIG "HDMI 1").length ≠ 1 := by
  decide

/-- C4 (amended): for every model and source value, `setSource` sends
`set input <src>` when the model id is "vertex", and `set <source_command>
<src>` when the model id is not "vertex" and the model's source verb is
non-empty; a model whose source verb is empty sends nothing. `<src>` is the
source formatted for the model by `format_source_for_command`. -/
theorem c4_set_source (cfg : ModelConfig) (source : String) :
    (cfg.model_id = "vertex" →
      set_source_wire cfg source =
        ["set input " ++ format_source_for_command source cfg]) ∧
    (cfg.model_id ≠ "vertex" → cfg.source_command ≠ "" →
      set_source_wire cfg source =
        ["set " ++ cfg.source_command ++ " " ++ format_source_for_command source cfg]) ∧
    (cfg.model_id ≠ "vertex" → cfg.source_command = "" →
      set_source_wire cfg source = []) := by
  refine ⟨fun h => ?_, fun h1 h2 => ?_, fun h1 h2 => ?_⟩ <;>
    simp [set_source_wire, *]

/-- C4 witness: the "vertex" model sends `set input top` for source "Top". -/
theorem c4_set_source_witness :
    set_source_wire VERTEX_CONFIG "Top" =
      ["set input " ++ format_source_for_command "Top" VERTEX_CONFIG] :=
  (c4_set_source VERTEX_CONFIG "Top").1 rfl

/-- C5 code evaluation at the failing input: the vertex capability lists
"7.1" among its EDID audio sources, so `_build_simple_commands` generates the
identifier `set_edidaudio_71` (dots stripped); the dispatcher, which only
rewrites the payload "51" back to "5.1", decodes it as "71" and calls
`setEdidAudio` with "71", which reaches the wire as `set edid audio 71`
instead of the capability value "7.1". -/
theorem c5_edidaudio_roundtrip_failure :
    "7.1" ∈ VERTEX_CONFIG.edid_audio_sources ∧
    "set_edidaudio_71" ∈ build_simple_commands_for VERTEX_CONFIG ∧
    dispatch "set_edidaudio_71" = some (SessionCall.setEdidAudio "71") ∧
    ("71" : String) ≠ "7.1" ∧
    call_wire VERTEX_CONFIG (SessionCall.setEdidAudio "71") = ["set edid audio 71"] := by
  decide

/-- C6 counterexample: the claim states that `connect()` fails with a
`ConnectionError` when the socket cannot be opened within the 10-second
connect timeout. In that situation `asyncio.wait_for` raises
`asyncio.TimeoutError`, which `connect()` re-raises unchanged — a timeout
error, not a `ConnectionError`. -/
theorem c6_counterexample :
    (connect_result .timedOut 0 ⟨false, 0⟩).error = some ConnectError.timeoutError ∧
    some ConnectError.timeoutError ≠ some ConnectError.connectionError := by
  decide

/-- C6 (amended): when the session is not connected, `connect()` re-raises
the underlying failure: exceeding the 10-second connect timeout surfaces as a
timeout error (`asyncio.TimeoutError`), a refused/reset attempt surfaces as a
`ConnectionError`, and a successful open leaves the session connected. -/
theorem c6_connect_failure (co : ConnectOutcome) (now : Int) (s : ClientState)
    (h : s.connected = false) :
    connect_timeout_seconds = 10 ∧
    (co = .timedOut → (connect_result co now s).error = some .timeoutError) ∧
    (co = .refused → (connect_result co now s).error = some .connectionError) ∧
    (co = .opened → (connect_result co now s).error = none ∧
      (connect_result co now s).state.connected = true) := by
  refine ⟨rfl, fun hco => ?_, fun hco => ?_, fun hco => ?_⟩ <;>
    subst hco <;> simp [connect_result, h]

/-- C6 witness: a connect attempt from a disconnected session that exceeds
the budget raises the timeout class. -/
theorem c6_connect_failure_witness :
    (connect_result .timedOut 0 ⟨false, 0⟩).error = some .timeoutError :=
  (c6_connect_failure .timedOut 0 ⟨false, 0⟩ rfl).2.1 rfl

/-- C7 counterexample: the claim states that characters of the response other
than a leading prompt and surrounding whitespace are preserved. The code
removes every `>` character, so the interior `>` of `a>b` is lost. -/
theorem c7_counterexample :
    decode_response "a>b" = "ab" ∧ ("ab" : String) ≠ "a>b" := by
  decide

/-- C7 (amended): for every response line, the returned value is the line
with every `>` character removed (not only a leading prompt) and surrounding
whitespace stripped; all other characters are preserved in order. -/
theorem c7_decode (line : String) :
    decode_response line = pyStrip ⟨line.data.filter (fun c => !(c == '>'))⟩ := by
  unfold decode_response pyReplace
  exact congrArg (fun l => pyStrip ⟨l⟩)
    (replaceFuel_single_empty '>' line.data line.data.length le_rfl)

/-- C8: a command identifier matching none of the recognised `set_*` prefixes
yields NOT_IMPLEMENTED with no client call and nothing on the wire; for a
recognised identifier, an exception during the mapped action yields
SERVER_ERROR, and normal completion yields OK with `set_source_*`
additionally updating the in-memory current-source field. -/
theorem c8_dispatch_statuses (cfg : ModelConfig) (fails : SessionCall → Bool)
    (command : String) (cur : Option String) :
    (recognized command = false →
      execute_command_internal cfg fails command cur =
        ⟨.notImplemented, [], [], cur⟩) ∧
    (∀ call, dispatch command = some call → fails call = true →
      execute_command_internal cfg fails command cur =
        ⟨.serverError, [call], [], cur⟩) ∧
    (∀ call, dispatch command = some call → fails call = false →
      (execute_command_internal cfg fails command cur).status = .ok ∧
      (∀ src, call = .setSource src →
        (execute_command_internal cfg fails command cur).current_source = some src)) := by
  refine ⟨fun h => ?_, fun call hd hf => ?_, fun call hd hf => ?_⟩
  · unfold execute_command_internal
    rw [(dispatch_none_iff command).mpr h]
  · unfold execute_command_internal
    rw [hd]
    simp [hf]
  · unfold execute_command_internal
    rw [hd]
    refine ⟨by simp [hf], fun src hsrc => ?_⟩
    subst hsrc
    simp [hf]

/-- C8 witness: the identifier `volume_up` matches no recognised prefix and
is rejected as NOT_IMPLEMENTED without any client call. -/
theorem c8_dispatch_statuses_witness :
    execute_command_internal VRROOM_CONFIG (fun _ => false) "volume_up" none =
      ⟨.notImplemented, [], [], none⟩ :=
  (c8_dispatch_statuses VRROOM_CONFIG (fun _ => false) "volume_up" none).1 (by decide)

/-- C10: for every model whose source verb is empty and whose id is not
"vertex" (the arcana2 and dr8k configurations), dispatching any
`set_source_*` identifier completes with OK and updates the in-memory
current-source field while sending nothing on the wire. -/
theorem c10_silent_set_source (cfg : ModelConfig) (suffix : String)
    (cur : Option String) (h1 : cfg.source_command = "")
    (h2 : cfg.model_id ≠ "vertex") :
    execute_command_internal cfg (fun _ => false) ("set_source_" ++ suffix) cur =
      ⟨.ok,
       [.setSource (pyReplace (pyReplace ("set_source_" ++ suffix)
         "set_source_" "") "_" " ")],
       [],
       some (pyReplace (pyReplace ("set_source_" ++ suffix)
         "set_source_" "") "_" " ")⟩ := by
  unfold execute_command_internal
  rw [dispatch_set_source]
  simp [call_wire, set_source_wire, h1, h2]

/-- C10 witness: on the arcana2 configuration, `set_source_HDMI_0` returns OK
and records "HDMI 0" as current source with an empty wire trace. -/
theorem c10_silent_set_source_witness :
    execute_command_internal ARCANA2_CONFIG (fun _ => false)
        ("set_source_" ++ "HDMI_0") none =
      ⟨.ok,
       [.setSource (pyReplace (pyReplace ("set_source_" ++ "HDMI_0")
         "set_source_" "") "_" " ")],
       [],
       some (pyReplace (pyReplace ("set_source_" ++ "HDMI_0")
         "set_source_" "") "_" " ")⟩ :=
  c10_silent_set_source ARCANA2_CONFIG "HDMI_0" none rfl (by decide)

/-- C2 counterexample: the claim states that after the caller's 10-second
wait expires the dispatch still resolves the caller's completion handle. With
dispatch result OK arriving at 11 seconds, the handle ends cancelled (the
expired `asyncio.wait_for` cancelled it), not resolved with the dispatch
result. -/
theorem c2_counterexample :
    queue_command_wait .ok 11 = (.serverError, .cancelled, true) ∧
    FutureState.cancelled ≠ FutureState.resolved .ok := by
  decide

/-- C2 (amended): for every enqueued command whose dispatch takes longer than
the 10-second caller ceiling, the caller receives a server-error status and
the in-flight dispatch is not cancelled — it still runs to completion — but
its attempt to resolve the caller's completion handle fails because the
expired wait already cancelled the handle, which therefore ends cancelled
rather than resolved. -/
theorem c2_queue_timeout (r : StatusCode) (d : Nat) (h : d > queue_wait_seconds) :
    queue_command_wait r d = (.serverError, .cancelled, true) := by
  unfold queue_command_wait
  rw [if_neg (by omega)]
  rfl

/-- C2 witness: dispatch result OK arriving at 11 seconds. -/
theorem c2_queue_timeout_witness :
    queue_command_wait .ok 11 = (.serverError, .cancelled, true) :=
  c2_queue_timeout .ok 11 (by decide)

/-- C9: a keep-alive cycle starting from lifecycle state On with no command
in flight, an empty queue, more than 1200 seconds since the last successful
command and a disconnected client transitions On → Unavailable (first change
notification), attempts a reconnect, and on success transitions back to On
with the success timestamp refreshed (second change notification) — exactly
two notifications, the first carrying the Unavailable state and the second
the On state; on reconnect failure the cycle ends still Unavailable with only
the first notification emitted. -/
theorem c9_keep_alive_cycle (now : Int) (d : KeepAliveState)
    (hOn : d.state = .On) (hCip : d.command_in_progress = false)
    (hQ : d.queue_empty = true) (hConn : d.connected = false)
    (hIdle : now - d.last_successful_command > 1200) :
    (keep_alive_cycle now true d =
      ({ d with state := .On, media_title := "Ready", connected := true,
                last_successful_command := now },
       [{ d with state := .Unavailable, media_title := "Connection Lost" },
        { d with state := .On, media_title := "Ready", connected := true,
                 last_successful_command := now }])) ∧
    (keep_alive_cycle now false d =
      ({ d with state := .Unavailable, media_title := "Connection Lost" },
       [{ d with state := .Unavailable, media_title := "Connection Lost" }])) := by
  constructor <;> simp [keep_alive_cycle, hCip, hQ, hConn, hIdle, hOn]

/-- C9 witness: a concrete cycle 1300 seconds after the last success with a
dead socket and a successful reconnect emits exactly the Unavailable and On
snapshots. -/
theorem c9_keep_alive_cycle_witness :
    keep_alive_cycle 1300 true ⟨.On, "Ready", 0, false, true, false⟩ =
      (⟨.On, "Ready", 1300, false, true, true⟩,
       [⟨.Unavailable, "Connection Lost", 0, false, true, false⟩,
        ⟨.On, "Ready", 1300, false, true, true⟩]) :=
  (c9_keep_alive_cycle 1300 ⟨.On, "Ready", 0, false, true, false⟩
    rfl rfl rfl rfl (by decide)).1

end HDFury
